import Mathlib

/-!
Verification of the Venezuelan local-flavor form fields (`ve/forms.py`).

The Python module defines five validator fields; the interesting logic is the
RIF (tax-registration number) validator `VERIFField` with its private helpers
`__canon`, `__calc_cd` and `__format`.  The other fields (`VEZipCodeField`,
`VEDNIField`, `VEPhoneField`) are thin wrappers over the Django base-class
`clean` plus a few extra checks.

Modelling conventions:
* Python strings are Lean `String`s (lists of characters); all inputs of
  interest are ASCII, and `Char.isDigit` models `unicode.isdigit` on the
  ASCII fragment.
* Raised exceptions are modelled by `Except PyError`; `ValidationError`
  carries the key of the message in `default_error_messages`.
* The Django base classes (`CharField` / `RegexField`) are external to the
  repository; their `clean` calls are modelled from the spec's contracts for
  optional fields: the strip-then-check postal-code and national-ID contracts
  leave all checks to the field's own body, the phone contract is its literal
  regex, and the RIF validator treats empty or whitespace-only input as not
  supplied.
-/

/-- Exceptions a validator can raise: Django `ValidationError` with the key of
the message used, plus the Python `NameError`, `IndexError` and `ValueError`
that the module can hit. -/
inductive PyError where
  | validationError (key : String)
  | nameError (name : String)
  | indexError
  | valueError
  deriving DecidableEq

instance {ε α : Type} [DecidableEq ε] [DecidableEq α] : DecidableEq (Except ε α) := fun a b =>
  match a, b with
  | .error e, .error f =>
    match decEq e f with
    | .isTrue h => .isTrue (h ▸ rfl)
    | .isFalse h => .isFalse (fun he => h (Except.error.inj he))
  | .error _, .ok _ => .isFalse (fun he => Except.noConfusion he)
  | .ok _, .error _ => .isFalse (fun he => Except.noConfusion he)
  | .ok a, .ok b =>
    match decEq a b with
    | .isTrue h => .isTrue (h ▸ rfl)
    | .isFalse h => .isFalse (fun he => h (Except.ok.inj he))

/-- Python `int(c)` for a single character: the digit value, `ValueError`
otherwise. -/
def pyIntChar (c : Char) : Except PyError Nat :=
  if c.isDigit then .ok (c.toNat - 48) else .error .valueError

/-- Python `value.isdigit()`: non-empty and all characters are digits. -/
def pyIsDigit (s : String) : Bool :=
  !s.toList.isEmpty && s.toList.all Char.isDigit

/-- A character `int()` skips at the ends of its argument. -/
def isSpaceChar (c : Char) : Bool :=
  c == ' ' || c == '\t' || c == '\n' || c == '\r'

/-- Removal of the one optional leading sign that `int()` accepts. -/
def pyIntStripSign (l : List Char) : List Char :=
  match l with
  | [] => []
  | c :: r => if c = '+' ∨ c = '-' then r else c :: r

/-- The trimming `int()` performs before reading digits: surrounding
whitespace, then one optional sign. -/
def pyIntTrim (s : String) : List Char :=
  pyIntStripSign (((s.toList.dropWhile isSpaceChar).reverse.dropWhile isSpaceChar).reverse)

/-- Python `int(s)` succeeds iff after trimming surrounding whitespace and an
optional sign the string is a non-empty run of digits; this predicate models
that success condition. -/
def pyIntOk (s : String) : Bool :=
  !(pyIntTrim s).isEmpty && (pyIntTrim s).all Char.isDigit

/-- Matcher for an optional hyphen (the regex piece `-?`). -/
def dropDash (l : List Char) : List Char :=
  match l with
  | [] => []
  | c :: rest => if c = '-' then rest else c :: rest

/-- Matcher for the regex piece `\d{n}`: consumes exactly `n` digits and
returns the remainder, or fails. -/
def matchDigits : Nat → List Char → Option (List Char)
  | 0, l => some l
  | _ + 1, [] => none
  | n + 1, c :: rest => if c.isDigit then matchDigits n rest else none

/-- The character class `[jJ|vV|eE|gG|pP]` of the RIF regex (note that the
class literally contains the bar character). -/
def isRifLetter (c : Char) : Bool :=
  c == 'j' || c == 'J' || c == '|' || c == 'v' || c == 'V' ||
  c == 'e' || c == 'E' || c == 'g' || c == 'G' || c == 'p' || c == 'P'

/-- The RIF regex from the source, `[jJ|vV|eE|gG|pP]-?\d{8}-?\d` anchored at
both ends.  The pattern is deterministic (no backtracking is ever needed
because a hyphen is not a digit). -/
def rifRegexMatch (s : String) : Bool :=
  match s.toList with
  | [] => false
  | c :: rest =>
    isRifLetter c &&
      (match matchDigits 8 (dropDash rest) with
       | none => false
       | some rest2 =>
         match matchDigits 1 (dropDash rest2) with
         | some [] => true
         | _ => false)

/-- The phone regex `\d{4}-\d{7}` anchored at both ends. -/
def phonePattern (s : String) : Bool :=
  match matchDigits 4 s.toList with
  | some ('-' :: rest) =>
    (match matchDigits 7 rest with
     | some [] => true
     | _ => false)
  | _ => false

/-- Modelled from the spec: the external base-class `clean` call of the
non-core postal-code and national-ID fields.  The spec specifies these
validators only through their overall strip-then-check contracts (its section
on external interfaces: remove the separators, then test digit-ness and
length), so the base call contributes no checks of its own and passes the raw
value through; all validation happens in the field's own `clean` body, and
empty values are recognised there by the `EMPTY_VALUES` test. -/
def fieldBaseClean (value : String) : Except PyError String :=
  .ok value

/-- Modelled from the spec: the external base-class `clean` of the phone
field.  The spec's phone contract is exactly the literal pattern
`\d{4}-\d{7}` with no stripping -- the same regex the source passes to the
base class -- and empty input passes through for an optional field. -/
def phoneBaseClean (value : String) : Except PyError String :=
  if value = "" then .ok ""
  else if phonePattern value then .ok value
  else .error (.validationError "invalid")

/-- Modelled from the spec: the base-class `clean` of `VERIFField`.  Empty or
whitespace-only input is treated as "field not supplied" and yields the empty
result, exactly as the spec's validator contract states; any other input has
its shape checked against the field's regex (the canonicalizer contract
rejects ill-formed inputs with `InvalidFormat`; the misspelled
`max_lenght`/`min_lenght` keywords impose no length limits). -/
def rifBaseClean (value : String) : Except PyError String :=
  if value.toList.all Char.isWhitespace then .ok ""
  else if rifRegexMatch value then .ok value
  else .error (.validationError "invalid")

/-- The `rif_first_char` dictionary of `VERIFField`: category letter to
category digit. -/
def VERIFField.rif_first_char (c : Char) : Option Char :=
  if c = 'v' then some '1'
  else if c = 'e' then some '2'
  else if c = 'j' then some '3'
  else if c = 'p' then some '4'
  else if c = 'g' then some '5'
  else none

/-- `VERIFField.__canon`: drop hyphens, look the lowered first character up in
`rif_first_char` (raising the `invalid` `ValidationError` when absent), then
replace every occurrence of the first character by the category digit
(`rif.replace(rif[0], digit)` replaces all occurrences) and split off the last
character.  Indexing an empty string raises `IndexError`. -/
def VERIFField.canon (rif : String) : Except PyError (String × String) :=
  match (rif.toList.filter fun c => c ≠ '-') with
  | [] => .error .indexError
  | c :: rest =>
    match VERIFField.rif_first_char c.toLower with
    | none => .error (.validationError "invalid")
    | some d =>
      match ((c :: rest).map fun x => if x = c then d else x).reverse with
      | [] => .error .indexError
      | last :: initRev => .ok (String.mk initRev.reverse, String.mk [last])

/-- The `multipliers` tuple of `VERIFField.__calc_cd`. -/
def multipliers : List Nat := [4, 3, 2, 7, 6, 5, 4, 3, 2]

/-- The list comprehension of `__calc_cd`: for each multiplier in turn, index
the string (raising `IndexError` past the end), convert the character with
`int` (raising `ValueError` on a non-digit) and accumulate the weighted sum. -/
def weightedTerms : List Nat → List Char → Except PyError Nat
  | [], _ => .ok 0
  | _ :: _, [] => .error .indexError
  | m :: ms, c :: cs =>
    match pyIntChar c with
    | .error e => .error e
    | .ok d =>
      match weightedTerms ms cs with
      | .error e => .error e
      | .ok rest => .ok (m * d + rest)

/-- `VERIFField.__calc_cd`: the weighted sum of the first nine digits followed
by `str(11 - tmp % 11)`. -/
def VERIFField.calc_cd (rif : String) : Except PyError String :=
  match weightedTerms multipliers rif.toList with
  | .error e => .error e
  | .ok tmp => .ok (toString (11 - tmp % 11))

/-- `VERIFField.__format` as called from `clean` (the check digit is always
passed): `u'%s%s%s' % (rif[:2], rif[2:], check_digit)`. -/
def VERIFField.format (rif check_digit : String) : String :=
  String.mk (rif.toList.take 2) ++ String.mk (rif.toList.drop 2) ++ check_digit

/-- The body of `VERIFField.clean` past the base-class call: empty values pass
through, otherwise canonicalize, compare the computed check digit against the
supplied one (raising the `checksum` `ValidationError` on mismatch) and format
the result.  This is the validation logic with the base class resolved; the
method as written in the source also trips over the undefined global name
`RIFField`, which `VERIFField.clean` below models. -/
def VERIFField.cleanLogic (value : String) : Except PyError String :=
  match rifBaseClean value with
  | .error e => .error e
  | .ok value =>
    if value = "" then .ok ""
    else
      match VERIFField.canon value with
      | .error e => .error e
      | .ok (rif, cd) =>
        match VERIFField.calc_cd rif with
        | .error e => .error e
        | .ok expected =>
          if expected ≠ cd then .error (.validationError "checksum")
          else .ok (VERIFField.format rif cd)

/-- The names bound at module level in `ve/forms.py` when any method runs:
the imports and the classes the module defines. -/
def moduleNames : List String :=
  ["re", "ValidationError", "Select", "CharField", "RegexField", "Field",
   "EMPTY_VALUES", "smart_unicode", "_",
   "VEZipCodeField", "VEDNIField", "VERIFField", "VEPhoneField",
   "VERegionsSelect", "VERegionChoiceField", "VEStateSelect",
   "VEStateChoiceField", "VESMunicipalitySelect", "VEMunicipalityChoiceField",
   "VEParishesSelect", "VEParishesChoiceField"]

/-- Python global-name resolution in this module: a name evaluates to itself
when bound, otherwise raises `NameError`. -/
def resolveGlobal (n : String) : Except PyError String :=
  if n ∈ moduleNames then .ok n else .error (.nameError n)

/-- `VERIFField.__init__` as written: it evaluates `super(RIFField, self)`,
which resolves the global name `RIFField` before anything else can happen. -/
def VERIFField.init : Except PyError Unit :=
  match resolveGlobal "RIFField" with
  | .error e => .error e
  | .ok _ => .ok ()

/-- `VERIFField.clean` as written: it evaluates `super(RIFField, self)` -- the
global name `RIFField` -- before the base-class `clean` and the body
(`VERIFField.cleanLogic`) can run. -/
def VERIFField.clean (value : String) : Except PyError String :=
  match resolveGlobal "RIFField" with
  | .error e => .error e
  | .ok _ => VERIFField.cleanLogic value

/-- The tail of `VEZipCodeField.clean` applied to the (possibly
period-stripped) value: the `isdigit` check, the length-4 check, and no
`return` statement on success (Python then returns `None`, modelled as
`none`). -/
def zipCheck (value : String) : Except PyError (Option String) :=
  if !pyIsDigit value then .error (.validationError "invalid")
  else if value.length ≠ 4 then .error (.validationError "max_digits")
  else .ok none

/-- `value.replace('.', '')` of `VEZipCodeField.clean`. -/
def zipStrip (value : String) : String :=
  String.mk (value.toList.filter fun c => c ≠ '.')

/-- `VEZipCodeField.clean`: base-class `clean` (pass-through per the spec's
strip-then-check contract), the empty pass-through returning `u''`,
period-stripping when the value is not all digits, then the final checks of
`zipCheck`. -/
def VEZipCodeField.clean (value : String) : Except PyError (Option String) :=
  match fieldBaseClean value with
  | .error e => .error e
  | .ok value =>
    if value = "" then .ok (some "")
    else zipCheck (if pyIsDigit value then value else zipStrip value)

/-- `re.sub("[-\.]", "", value)` of `VEDNIField.clean`. -/
def dniSub (value : String) : String :=
  String.mk (value.toList.filter fun c => !(c == '-' || c == '.'))

/-- The tail of `VEDNIField.clean` applied to the (possibly stripped) value:
`int(value)` (whose failure raises the `invalid` `ValidationError`), the
7-or-8 length check, and `return value` on success. -/
def dniCheck (value : String) : Except PyError (Option String) :=
  if !pyIntOk value then .error (.validationError "invalid")
  else if value.length ≠ 7 ∧ value.length ≠ 8 then
    .error (.validationError "max_digits")
  else .ok (some value)

/-- `VEDNIField.clean`: base-class `clean` (pass-through per the spec's
strip-then-check contract), the empty pass-through returning `u''`, separator
stripping when the value is not all digits, then the final checks of
`dniCheck`. -/
def VEDNIField.clean (value : String) : Except PyError (Option String) :=
  match fieldBaseClean value with
  | .error e => .error e
  | .ok value =>
    if value = "" then .ok (some "")
    else dniCheck (if pyIsDigit value then value else dniSub value)

/-- `VEPhoneField.clean`: base-class `clean` with the regex `\d{4}-\d{7}`,
empty pass-through, the length-12 check, and no `return` statement on success
(Python then returns `None`, modelled as `none`). -/
def VEPhoneField.clean (value : String) : Except PyError (Option String) :=
  match phoneBaseClean value with
  | .error e => .error e
  | .ok value =>
    if value = "" then .ok (some "")
    else if value.length ≠ 12 then .error (.validationError "max_digits")
    else .ok none

/-- The checksum formula in the words of the spec: apply the fixed positional
weights `[4,3,2,7,6,5,4,3,2]` to the payload digits in order and sum the
weighted products. -/
def specWeightedSum (payload : String) : Nat :=
  (List.zipWith (fun m c => m * (c.toNat - 48)) multipliers payload.toList).sum

example : VERIFField.cleanLogic "v-12345678-1" = .ok "1123456781" := by decide
example : VERIFField.cleanLogic "v-12345678-9" = .error (.validationError "checksum") := by decide
example : VERIFField.cleanLogic "v12345678-9" = .error (.validationError "checksum") := by decide
example : VERIFField.cleanLogic "V12345678-9" = .error (.validationError "checksum") := by decide
example : VERIFField.cleanLogic " " = .ok "" := by decide
example : VERIFField.cleanLogic "" = .ok "" := by decide
example : VERIFField.cleanLogic "x12345678-9" = .error (.validationError "invalid") := by decide
example : VERIFField.calc_cd "104000000" = .ok "10" := by decide
example : VERIFField.calc_cd "109000000" = .ok "11" := by decide
example : VERIFField.canon "v-04000000-0" = .ok ("104000000", "0") := by decide
example : VERIFField.cleanLogic "v-04000000-0" = .error (.validationError "checksum") := by decide
example : VEZipCodeField.clean "1010" = .ok none := by decide
example : VEZipCodeField.clean "1.0.1.0" = .ok none := by decide
example : VEZipCodeField.clean "10105" = .error (.validationError "max_digits") := by decide
example : VEZipCodeField.clean "" = .ok (some "") := by decide
example : VEPhoneField.clean "0412-1234567" = .ok none := by decide
example : VEDNIField.clean "1.234.567" = .ok (some "1234567") := by decide
example : VEDNIField.clean "+1234567" = .ok (some "+1234567") := by decide
example : VEDNIField.clean "12345678" = .ok (some "12345678") := by decide
example : VERIFField.init = .error (.nameError "RIFField") := by decide
example : VERIFField.clean "v-12345678-1" = .error (.nameError "RIFField") := rfl
example : specWeightedSum "112345678" = 142 := by decide
example : specWeightedSum "104000000" % 11 = 1 := by decide
lemma string_eq_empty_iff (s : String) : s = "" ↔ s.toList = [] := by
  constructor
  · intro h; rw [h]; rfl
  · intro h
    cases s with
    | mk data =>
      cases data with
      | nil => rfl
      | cons c cs => simp [String.toList] at h

lemma string_length_eq (s : String) : s.toList.length = s.length := rfl

lemma isDigit_ne_dash {c : Char} (h : c.isDigit = true) : c ≠ '-' := by
  intro he; rw [he] at h; exact absurd h (by decide)

lemma isDigit_ne_dot {c : Char} (h : c.isDigit = true) : c ≠ '.' := by
  intro he; rw [he] at h; exact absurd h (by decide)

lemma matchDigits_shape : ∀ (n : Nat) (l r : List Char), matchDigits n l = some r →
    ∃ ds, l = ds ++ r ∧ ds.length = n ∧ ds.all Char.isDigit = true := by
  intro n
  induction n with
  | zero =>
    intro l r h
    simp [matchDigits] at h
    exact ⟨[], by simp [h]⟩
  | succ n ih =>
    intro l r h
    cases l with
    | nil => simp [matchDigits] at h
    | cons c cs =>
      simp only [matchDigits] at h
      by_cases hc : c.isDigit = true
      · rw [if_pos hc] at h
        obtain ⟨ds, hds, hlen, hall⟩ := ih cs r h
        exact ⟨c :: ds, by simp [hds], by simp [hlen], by simp [hall, hc]⟩
      · rw [if_neg hc] at h
        cases h

lemma dropDash_eq (l : List Char) : dropDash l = l ∨ l = '-' :: dropDash l := by
  cases l with
  | nil => left; rfl
  | cons c rest =>
    by_cases hc : c = '-'
    · right; subst hc; simp [dropDash]
    · left; simp [dropDash, hc]

lemma filter_ne_dash_of_digits (l : List Char) (h : l.all Char.isDigit = true) :
    (l.filter fun c => c ≠ '-') = l := by
  rw [List.all_eq_true] at h
  apply List.filter_eq_self.mpr
  intro a ha
  simpa using isDigit_ne_dash (h a ha)

lemma map_replace_of_digits (c d : Char) (hc : c.isDigit = false) :
    ∀ (l : List Char), l.all Char.isDigit = true →
    (l.map fun x => if x = c then d else x) = l := by
  intro l
  induction l with
  | nil => intro _; rfl
  | cons a as ih =>
    intro h
    rw [List.all_cons, Bool.and_eq_true] at h
    obtain ⟨ha, has⟩ := h
    have hne : a ≠ c := by
      intro he
      rw [he] at ha
      rw [ha] at hc
      cases hc
    simp [hne, ih has]

lemma isRifLetter_facts {c : Char} (h : isRifLetter c = true) :
    c.isDigit = false ∧ c ≠ '-' ∧ c.isWhitespace = false := by
  simp only [isRifLetter, Bool.or_eq_true, beq_iff_eq] at h
  rcases h with ((((((((((h|h)|h)|h)|h)|h)|h)|h)|h)|h)|h) <;> subst h <;>
    exact ⟨by decide, by decide, by decide⟩

lemma rif_first_char_digit {x d : Char} (h : VERIFField.rif_first_char x = some d) :
    d.isDigit = true := by
  unfold VERIFField.rif_first_char at h
  split_ifs at h <;> simp_all <;> subst h <;> decide

lemma rifRegex_struct (s : String) (h : rifRegexMatch s = true) :
    ∃ c ds8 dl, isRifLetter c = true ∧ ds8.length = 8 ∧ ds8.all Char.isDigit = true ∧
      dl.isDigit = true ∧ (s.toList.filter fun x => x ≠ '-') = c :: (ds8 ++ [dl]) ∧
      s.toList ≠ [] := by
  unfold rifRegexMatch at h
  cases hl : s.toList with
  | nil => rw [hl] at h; cases h
  | cons c rest =>
    rw [hl] at h
    rw [Bool.and_eq_true] at h
    obtain ⟨hletter, hrest⟩ := h
    cases hm8 : matchDigits 8 (dropDash rest) with
    | none => rw [hm8] at hrest; cases hrest
    | some rest2 =>
      rw [hm8] at hrest
      simp only [] at hrest
      cases hm1 : matchDigits 1 (dropDash rest2) with
      | none => rw [hm1] at hrest; simp at hrest
      | some rem =>
        rw [hm1] at hrest
        cases rem with
        | cons x xs => simp at hrest
        | nil =>
          obtain ⟨ds8, hds8, hlen8, hall8⟩ := matchDigits_shape 8 _ _ hm8
          obtain ⟨ds1, hds1, hlen1, hall1⟩ := matchDigits_shape 1 _ _ hm1
          rw [List.append_nil] at hds1
          obtain ⟨dl, rfl⟩ : ∃ dl, ds1 = [dl] := by
            cases ds1 with
            | nil => cases hlen1
            | cons a t =>
              cases t with
              | nil => exact ⟨a, rfl⟩
              | cons b u => simp at hlen1
          rw [List.all_cons, Bool.and_eq_true] at hall1
          obtain ⟨hdl, -⟩ := hall1
          obtain ⟨hcnotdig, hcnotdash, -⟩ := isRifLetter_facts hletter
          have hfrest2 : (rest2.filter fun x => x ≠ '-') = [dl] := by
            rcases dropDash_eq rest2 with h2 | h2
            · rw [← h2, hds1]
              simp [List.filter_cons, isDigit_ne_dash hdl]
            · rw [h2, hds1]
              simp [List.filter_cons, isDigit_ne_dash hdl]
          have hfrest : (rest.filter fun x => x ≠ '-') = ds8 ++ [dl] := by
            rcases dropDash_eq rest with h2 | h2
            · rw [← h2, hds8, List.filter_append, filter_ne_dash_of_digits ds8 hall8, hfrest2]
            · rw [h2]
              have : ((('-' : Char) :: dropDash rest).filter fun x => x ≠ '-')
                  = (dropDash rest).filter fun x => x ≠ '-' := by
                simp [List.filter_cons]
              rw [this, hds8, List.filter_append, filter_ne_dash_of_digits ds8 hall8, hfrest2]
          refine ⟨c, ds8, dl, hletter, hlen8, hall8, hdl, ?_, by simp⟩
          simp only [ne_eq, decide_not] at hfrest ⊢
          rw [List.filter_cons]
          simp [hcnotdash, hfrest]

lemma weightedTerms_eq : ∀ (ms : List Nat) (l : List Char),
    ms.length ≤ l.length → (l.take ms.length).all Char.isDigit = true →
    weightedTerms ms l = .ok ((List.zipWith (fun m c => m * (c.toNat - 48)) ms l).sum) := by
  intro ms
  induction ms with
  | nil => intro l _ _; simp [weightedTerms]
  | cons m ms ih =>
    intro l hlen hdig
    cases l with
    | nil => simp at hlen
    | cons c cs =>
      simp only [List.length_cons, Nat.succ_le_succ_iff] at hlen
      rw [List.length_cons, List.take_succ_cons, List.all_cons, Bool.and_eq_true] at hdig
      obtain ⟨hc, hcs⟩ := hdig
      simp [weightedTerms, pyIntChar, hc, ih cs hlen hcs]

lemma calc_cd_eq_spec (p : String) (h9 : p.toList.length = 9)
    (hd : p.toList.all Char.isDigit = true) :
    VERIFField.calc_cd p = .ok (toString (11 - specWeightedSum p % 11)) := by
  have hml : multipliers.length = 9 := rfl
  have hlen : multipliers.length ≤ p.toList.length := by rw [hml, h9]
  have htake : (p.toList.take multipliers.length).all Char.isDigit = true := by
    rw [hml, ← h9, List.take_length]
    exact hd
  have heq := weightedTerms_eq multipliers p.toList hlen htake
  unfold VERIFField.calc_cd
  rw [heq]
  simp [specWeightedSum]

lemma two_char_ne_one (a b d : Char) : String.mk [a, b] ≠ String.mk [d] := by
  intro h
  have h2 := congrArg String.data h
  simp at h2

/-- C1 counterexample: the claim has the two inputs backwards.  The checksum
runs over all nine payload digits (category digit included), so the expected
check digit of `v-12345678` is 1, not 9: `"v-12345678-1"` does not raise the
checksum error, and `"v-12345678-9"` does not succeed with `"123456789"`. -/
theorem c1_counterexample :
    VERIFField.cleanLogic "v-12345678-1" ≠ Except.error (PyError.validationError "checksum") ∧
    VERIFField.cleanLogic "v-12345678-9" ≠ Except.ok "123456789" :=
  ⟨by decide, by decide⟩

/-- C1 (amended): for `"v-12345678-1"` the payload is the nine digits
`112345678`, the weighted sum is 142, `142 mod 11 = 10`, and the expected
check digit is `11 - 10 = 1`, so validation succeeds with the canonical output
`"1123456781"`; for `"v-12345678-9"` the supplied digit 9 mismatches and the
checksum `ValidationError` is raised. -/
theorem c1_rif_concrete :
    VERIFField.cleanLogic "v-12345678-1" = Except.ok "1123456781" ∧
    VERIFField.cleanLogic "v-12345678-9" = Except.error (PyError.validationError "checksum") :=
  ⟨by decide, by decide⟩

/-- C2 counterexample: for the 9-digit payload `"104000000"` the weighted sum
is 12, so `__calc_cd` returns `str(11 - 12 % 11) = "10"`, which is not the
string of any single digit 0-9. -/
theorem c2_counterexample :
    ¬ ∃ n : Nat, n ≤ 9 ∧ VERIFField.calc_cd "104000000" = Except.ok (toString n) := by
  rintro ⟨n, hn, h⟩
  have h10 : VERIFField.calc_cd "104000000" = Except.ok "10" := by decide
  rw [h10] at h
  have hts : toString n = "10" := (Except.ok.inj h).symm
  interval_cases n <;> exact absurd hts (by decide)

/-- C2 (amended): for every 9-digit payload (first digit 1-5)
`VERIFField.calc_cd` is deterministic -- it is a pure function -- and returns
`str(11 - sum % 11)` whose numeric value lies between 1 and 11; the values 10
and 11 fall outside the single-digit range 0-9. -/
theorem c2_checkdigit_range (p : String) (c : Char) (cs : List Char)
    (hp : p.toList = c :: cs)
    (hc : c = '1' ∨ c = '2' ∨ c = '3' ∨ c = '4' ∨ c = '5')
    (hcs : cs.all Char.isDigit = true) (hlen : cs.length = 8) :
    ∃ n : Nat, VERIFField.calc_cd p = Except.ok (toString n) ∧ 1 ≤ n ∧ n ≤ 11 := by
  have hcd : c.isDigit = true := by rcases hc with rfl|rfl|rfl|rfl|rfl <;> decide
  have h9 : p.toList.length = 9 := by rw [hp]; simp [hlen]
  have hd : p.toList.all Char.isDigit = true := by
    rw [hp, List.all_cons, Bool.and_eq_true]
    exact ⟨hcd, hcs⟩
  refine ⟨11 - specWeightedSum p % 11, calc_cd_eq_spec p h9 hd, ?_, ?_⟩
  · have : specWeightedSum p % 11 < 11 := Nat.mod_lt _ (by norm_num)
    omega
  · omega

/-- C2 witness: the payload `"112345678"` satisfies the hypotheses and its
check digit value is in range. -/
theorem c2_witness :
    ("112345678" : String).toList = '1' :: ['1', '2', '3', '4', '5', '6', '7', '8'] ∧
    (∃ n : Nat, VERIFField.calc_cd "112345678" = Except.ok (toString n) ∧ 1 ≤ n ∧ n ≤ 11) :=
  ⟨by decide,
   c2_checkdigit_range "112345678" '1' ['1', '2', '3', '4', '5', '6', '7', '8']
     (by decide) (Or.inl rfl) (by decide) (by decide)⟩

/-- C3: for every input that is empty or consists only of whitespace, the RIF
validator succeeds trivially with an empty result and raises no error: the
base-class clean treats it as "field not supplied" and passes the empty value
through, and the body's `EMPTY_VALUES` test then returns `u''`. -/
theorem c3_whitespace_passthrough (s : String)
    (hws : s.toList.all Char.isWhitespace = true) :
    VERIFField.cleanLogic s = Except.ok "" := by
  have hbase : rifBaseClean s = Except.ok "" := by
    unfold rifBaseClean
    rw [if_pos hws]
  unfold VERIFField.cleanLogic
  rw [hbase]
  simp

/-- C3 witness: the empty input and a whitespace-only input both satisfy the
hypothesis and succeed with the empty result. -/
theorem c3_witness :
    ("" : String).toList.all Char.isWhitespace = true ∧
    (" " : String).toList.all Char.isWhitespace = true ∧
    VERIFField.cleanLogic "" = Except.ok "" ∧
    VERIFField.cleanLogic " " = Except.ok "" :=
  ⟨by decide, by decide, c3_whitespace_passthrough "" (by decide),
   c3_whitespace_passthrough " " (by decide)⟩

/-- C6: for every 9-digit payload, `__calc_cd` computes exactly the weighted
sum with weights `[4,3,2,7,6,5,4,3,2]` applied to the digits in order,
followed by `11 - (sum mod 11)`, returned (as a decimal string) as the
expected check digit. -/
theorem c6_checksum_formula (p : String) (h9 : p.toList.length = 9)
    (hd : p.toList.all Char.isDigit = true) :
    VERIFField.calc_cd p = Except.ok (toString (11 - specWeightedSum p % 11)) :=
  calc_cd_eq_spec p h9 hd

/-- C6 witness: the formula evaluated on the concrete payload `"112345678"`. -/
theorem c6_witness :
    ("112345678" : String).toList.length = 9 ∧
    ("112345678" : String).toList.all Char.isDigit = true ∧
    VERIFField.calc_cd "112345678" =
      Except.ok (toString (11 - specWeightedSum "112345678" % 11)) :=
  ⟨by decide, by decide, c6_checksum_formula "112345678" (by decide) (by decide)⟩

/-- C7: validation is case-insensitive in the leading category letter:
`"v12345678-9"` and `"V12345678-9"` produce identical results (here both
raise the checksum `ValidationError`, since the expected check digit of the
payload `112345678` is 1, not 9). -/
theorem c7_case_insensitive :
    VERIFField.cleanLogic "v12345678-9" = VERIFField.cleanLogic "V12345678-9" ∧
    VERIFField.cleanLogic "v12345678-9" = Except.error (PyError.validationError "checksum") :=
  ⟨by decide, by decide⟩

/-- C8: both `VERIFField.__init__` and `VERIFField.clean` evaluate
`super(RIFField, self)`, and the global name `RIFField` is not bound anywhere
in the module, so constructing the field -- and calling `clean` on any value --
raises `NameError` before anything else can run. -/
theorem c8_nameerror :
    VERIFField.init = Except.error (PyError.nameError "RIFField") ∧
    ∀ value : String, VERIFField.clean value = Except.error (PyError.nameError "RIFField") := by
  refine ⟨by decide, fun value => ?_⟩
  have hres : resolveGlobal "RIFField" = Except.error (PyError.nameError "RIFField") := by
    decide
  unfold VERIFField.clean
  rw [hres]

lemma canon_eq_of_filter (s : String) (c : Char) (rest : List Char)
    (hfil : (s.toList.filter fun x => x ≠ '-') = c :: rest) :
    VERIFField.canon s =
      match VERIFField.rif_first_char c.toLower with
      | none => .error (.validationError "invalid")
      | some d =>
        match ((c :: rest).map fun x => if x = c then d else x).reverse with
        | [] => .error .indexError
        | last :: initRev => .ok (String.mk initRev.reverse, String.mk [last]) := by
  unfold VERIFField.canon
  rw [hfil]

/-- C9: for every well-formed RIF input (it matches the regex and its leading
letter is a valid category letter, so canonicalization succeeds) whose 9-digit
payload has a weighted sum congruent to 0 or 1 modulo 11, the computed check
digit is the two-character string `"11"` or `"10"`; it can never equal the
single supplied check-digit character, so validation raises the checksum
`ValidationError` no matter which check digit was supplied. -/
theorem c9_unreachable_checkdigit (s p cd : String)
    (h1 : rifRegexMatch s = true)
    (h2 : VERIFField.canon s = Except.ok (p, cd))
    (h3 : specWeightedSum p % 11 = 0 ∨ specWeightedSum p % 11 = 1) :
    (VERIFField.calc_cd p = Except.ok "11" ∨ VERIFField.calc_cd p = Except.ok "10") ∧
    VERIFField.cleanLogic s = Except.error (PyError.validationError "checksum") := by
  obtain ⟨c, ds8, dl, hletter, hlen8, hall8, hdl, hfil, hne⟩ := rifRegex_struct s h1
  obtain ⟨hcnotdig, hcnotdash, -⟩ := isRifLetter_facts hletter
  have hcanon := canon_eq_of_filter s c (ds8 ++ [dl]) hfil
  cases hm : VERIFField.rif_first_char c.toLower with
  | none =>
    rw [hm] at hcanon
    simp only [] at hcanon
    rw [hcanon] at h2
    exact Except.noConfusion h2
  | some d =>
    rw [hm] at hcanon
    simp only [] at hcanon
    have hmap : ((c :: (ds8 ++ [dl])).map fun x => if x = c then d else x)
        = d :: (ds8 ++ [dl]) := by
      rw [List.map_cons, if_pos rfl]
      congr 1
      apply map_replace_of_digits c d hcnotdig
      rw [List.all_append]
      simp [hall8, hdl]
    rw [hmap] at hcanon
    have hrev : (d :: (ds8 ++ [dl])).reverse = dl :: (d :: ds8).reverse := by
      rw [show d :: (ds8 ++ [dl]) = (d :: ds8) ++ [dl] by simp, List.reverse_append]
      rfl
    rw [hrev] at hcanon
    simp only [] at hcanon
    rw [List.reverse_reverse] at hcanon
    have hpair := Except.ok.inj (hcanon.symm.trans h2)
    have hp : String.mk (d :: ds8) = p := congrArg Prod.fst hpair
    have hcd : String.mk [dl] = cd := congrArg Prod.snd hpair
    subst hp
    subst hcd
    have hddig : d.isDigit = true := rif_first_char_digit hm
    have h9 : (String.mk (d :: ds8)).toList.length = 9 := by
      show (d :: ds8).length = 9
      simp [hlen8]
    have hall9 : (String.mk (d :: ds8)).toList.all Char.isDigit = true := by
      show (d :: ds8).all Char.isDigit = true
      rw [List.all_cons, Bool.and_eq_true]
      exact ⟨hddig, hall8⟩
    have hcalc := calc_cd_eq_spec (String.mk (d :: ds8)) h9 hall9
    have hsne : s ≠ "" := fun h => hne ((string_eq_empty_iff s).mp h)
    have hnws : ¬(s.toList.all Char.isWhitespace = true) := by
      intro hws
      have hcmem : c ∈ s.toList := by
        have hcf : c ∈ (s.toList.filter fun x => x ≠ '-') := by
          rw [hfil]
          exact List.mem_cons_self _ _
        exact List.mem_of_mem_filter hcf
      rw [List.all_eq_true] at hws
      obtain ⟨-, -, hnw⟩ := isRifLetter_facts hletter
      rw [hws c hcmem] at hnw
      cases hnw
    have hbase : rifBaseClean s = Except.ok s := by
      unfold rifBaseClean
      rw [if_neg hnws, if_pos (by rw [h1])]
    have hexp : ∃ e : String, VERIFField.calc_cd (String.mk (d :: ds8)) = Except.ok e ∧
        (e = "11" ∨ e = "10") := by
      rcases h3 with h3 | h3
      · refine ⟨toString (11 - specWeightedSum (String.mk (d :: ds8)) % 11), hcalc, Or.inl ?_⟩
        rw [h3]
        decide
      · refine ⟨toString (11 - specWeightedSum (String.mk (d :: ds8)) % 11), hcalc, Or.inr ?_⟩
        rw [h3]
        decide
    obtain ⟨e, hcalcOk, he⟩ := hexp
    have hneq : e ≠ String.mk [dl] := by
      rcases he with rfl | rfl
      · exact two_char_ne_one '1' '1' dl
      · exact two_char_ne_one '1' '0' dl
    constructor
    · rcases he with rfl | rfl
      · exact Or.inl hcalcOk
      · exact Or.inr hcalcOk
    · unfold VERIFField.cleanLogic
      rw [hbase]
      simp only []
      rw [if_neg hsne, hcanon]
      simp only []
      rw [hcalcOk]
      simp only []
      rw [if_pos hneq]

/-- C9 witness: `"v-04000000-0"` is well-formed, its payload `104000000` has
weighted sum 12 with `12 mod 11 = 1`, and validation fails with the checksum
`ValidationError` (the computed check digit is the two-character `"10"`). -/
theorem c9_witness :
    rifRegexMatch "v-04000000-0" = true ∧
    VERIFField.canon "v-04000000-0" = Except.ok ("104000000", "0") ∧
    specWeightedSum "104000000" % 11 = 1 ∧
    ((VERIFField.calc_cd "104000000" = Except.ok "11" ∨
      VERIFField.calc_cd "104000000" = Except.ok "10") ∧
     VERIFField.cleanLogic "v-04000000-0" = Except.error (PyError.validationError "checksum")) :=
  ⟨by decide, by decide, by decide,
   c9_unreachable_checkdigit "v-04000000-0" "104000000" "0" (by decide) (by decide)
     (Or.inr (by decide))⟩

lemma string_mk_toList (s : String) : String.mk s.toList = s := by
  cases s
  rfl

lemma dniSub_of_digits (s : String) (h : s.toList.all Char.isDigit = true) :
    dniSub s = s := by
  unfold dniSub
  have hfil : (s.toList.filter fun c => !(c == '-' || c == '.')) = s.toList := by
    apply List.filter_eq_self.mpr
    intro a ha
    rw [List.all_eq_true] at h
    have hd := h a ha
    have h1 : (a == '-') = false := by
      rw [beq_eq_false_iff_ne]
      exact isDigit_ne_dash hd
    have h2 : (a == '.') = false := by
      rw [beq_eq_false_iff_ne]
      exact isDigit_ne_dot hd
    rw [h1, h2]
    rfl
  rw [hfil]
  exact string_mk_toList s

lemma zipStrip_of_digits (s : String) (h : s.toList.all Char.isDigit = true) :
    zipStrip s = s := by
  unfold zipStrip
  have hfil : (s.toList.filter fun c => c ≠ '.') = s.toList := by
    apply List.filter_eq_self.mpr
    intro a ha
    rw [List.all_eq_true] at h
    simpa using isDigit_ne_dot (h a ha)
  rw [hfil]
  exact string_mk_toList s

lemma zipCheck_exists_iff (v : String) :
    (∃ r, zipCheck v = Except.ok r) ↔
      (v.length = 4 ∧ v.toList.all Char.isDigit = true) := by
  constructor
  · rintro ⟨r, h⟩
    unfold zipCheck at h
    by_cases h1 : (!pyIsDigit v) = true
    · rw [if_pos h1] at h
      exact Except.noConfusion h
    · rw [if_neg h1] at h
      have hd : pyIsDigit v = true := by
        cases hx : pyIsDigit v
        · rw [hx] at h1
          exact absurd rfl h1
        · rfl
      by_cases h2 : v.length ≠ 4
      · rw [if_pos h2] at h
        exact Except.noConfusion h
      · unfold pyIsDigit at hd
        rw [Bool.and_eq_true] at hd
        exact ⟨by omega, hd.2⟩
  · rintro ⟨hlen, hall⟩
    refine ⟨none, ?_⟩
    unfold zipCheck
    have hnn : v.toList ≠ [] := by
      intro hl
      have h0 : v.toList.length = 0 := by rw [hl]; rfl
      rw [string_length_eq] at h0
      omega
    have hd : pyIsDigit v = true := by
      unfold pyIsDigit
      rw [hall, Bool.and_true]
      cases hl : v.toList with
      | nil => exact absurd hl hnn
      | cons c cs => rfl
    rw [hd]
    simp only [Bool.not_true]
    rw [if_neg (by simp), if_neg (by omega)]

lemma dniCheck_exists_iff (v : String) :
    (∃ r, dniCheck v = Except.ok r) ↔
      (pyIntOk v = true ∧ (v.length = 7 ∨ v.length = 8)) := by
  constructor
  · rintro ⟨r, h⟩
    unfold dniCheck at h
    by_cases h1 : (!pyIntOk v) = true
    · rw [if_pos h1] at h
      exact Except.noConfusion h
    · rw [if_neg h1] at h
      have hok : pyIntOk v = true := by
        cases hx : pyIntOk v
        · rw [hx] at h1
          exact absurd rfl h1
        · rfl
      by_cases h2 : v.length ≠ 7 ∧ v.length ≠ 8
      · rw [if_pos h2] at h
        exact Except.noConfusion h
      · exact ⟨hok, by omega⟩
  · rintro ⟨hok, hlen⟩
    refine ⟨some v, ?_⟩
    unfold dniCheck
    rw [hok]
    simp only [Bool.not_true]
    rw [if_neg (by simp), if_neg (by omega)]

/-- C4: for every non-empty input, the postal-code validator succeeds iff the
result of removing the period characters is exactly 4 digits; otherwise it
fails with a typed format/length `ValidationError`.  In particular
`"1.0.1.0"` strips to `"1010"` and succeeds (with the `None` result that C10
documents). -/
theorem c4_zip_strip (s : String) (hne : s ≠ "") :
    (∃ r, VEZipCodeField.clean s = Except.ok r) ↔
      ((zipStrip s).length = 4 ∧ (zipStrip s).toList.all Char.isDigit = true) := by
  have heff : (if pyIsDigit s = true then s else zipStrip s) = zipStrip s := by
    by_cases hd : pyIsDigit s = true
    · rw [if_pos hd]
      unfold pyIsDigit at hd
      rw [Bool.and_eq_true] at hd
      exact (zipStrip_of_digits s hd.2).symm
    · rw [if_neg hd]
  unfold VEZipCodeField.clean fieldBaseClean
  simp only []
  rw [if_neg hne, heff]
  exact zipCheck_exists_iff (zipStrip s)

/-- C4 witness: `"1.0.1.0"` satisfies the hypothesis, strips to the 4 digits
`"1010"`, and succeeds. -/
theorem c4_witness :
    ("1.0.1.0" : String) ≠ "" ∧
    VEZipCodeField.clean "1.0.1.0" = Except.ok none ∧
    ((∃ r, VEZipCodeField.clean "1.0.1.0" = Except.ok r) ↔
      ((zipStrip "1.0.1.0").length = 4 ∧
        (zipStrip "1.0.1.0").toList.all Char.isDigit = true)) :=
  ⟨by decide, by decide, c4_zip_strip "1.0.1.0" (by decide)⟩

/-- C5 counterexample: the input `"+1234567"` keeps its sign after the
hyphen/period stripping, so its remainder is not numeric, yet the `int(value)`
call in the source accepts the signed string and validation succeeds -- the
claim demands failure for every input whose stripped remainder is not
numeric. -/
theorem c5_counterexample :
    VEDNIField.clean "+1234567" = Except.ok (some "+1234567") ∧
    dniSub "+1234567" = "+1234567" ∧
    pyIsDigit "+1234567" = false :=
  ⟨by decide, by decide, by decide⟩

/-- C5 (amended): for every non-empty input, the national-ID validator
succeeds iff the remainder after removing hyphens and periods is accepted by
Python `int()` -- a run of digits optionally surrounded by whitespace and
preceded by one sign -- and is 7 or 8 characters long.  Every remainder that
is numeric and 7 or 8 digits long therefore succeeds, but sign-decorated
remainders such as `"+1234567"` succeed as well. -/
theorem c5_dni_amended (s : String) (hne : s ≠ "") :
    (∃ r, VEDNIField.clean s = Except.ok r) ↔
      (pyIntOk (dniSub s) = true ∧
        ((dniSub s).length = 7 ∨ (dniSub s).length = 8)) := by
  have heff : (if pyIsDigit s = true then s else dniSub s) = dniSub s := by
    by_cases hd : pyIsDigit s = true
    · rw [if_pos hd]
      unfold pyIsDigit at hd
      rw [Bool.and_eq_true] at hd
      exact (dniSub_of_digits s hd.2).symm
    · rw [if_neg hd]
  unfold VEDNIField.clean fieldBaseClean
  simp only []
  rw [if_neg hne, heff]
  exact dniCheck_exists_iff (dniSub s)

/-- C5 witness: the documented format `"1.234.567"` satisfies the hypothesis;
it strips to the 7-digit `"1234567"` and both sides of the amended
equivalence hold for it. -/
theorem c5_witness :
    ("1.234.567" : String) ≠ "" ∧
    ((∃ r, VEDNIField.clean "1.234.567" = Except.ok r) ↔
      (pyIntOk (dniSub "1.234.567") = true ∧
        ((dniSub "1.234.567").length = 7 ∨ (dniSub "1.234.567").length = 8))) :=
  ⟨by decide, c5_dni_amended "1.234.567" (by decide)⟩

lemma zipCheck_ok (v : String) (r : Option String) (h : zipCheck v = Except.ok r) :
    r = none := by
  unfold zipCheck at h
  by_cases h1 : (!pyIsDigit v) = true
  · rw [if_pos h1] at h
    exact Except.noConfusion h
  · rw [if_neg h1] at h
    by_cases h2 : v.length ≠ 4
    · rw [if_pos h2] at h
      exact Except.noConfusion h
    · rw [if_neg h2] at h
      exact (Except.ok.inj h).symm

/-- C10: on every accepted non-empty input, `VEZipCodeField.clean` and
`VEPhoneField.clean` return `None` rather than the cleaned string: both
method bodies fall off the end without a `return` statement once their checks
pass. -/
theorem c10_returns_none (s t : String) (r1 r2 : Option String)
    (hs : s ≠ "") (ht : t ≠ "")
    (h1 : VEZipCodeField.clean s = Except.ok r1)
    (h2 : VEPhoneField.clean t = Except.ok r2) :
    r1 = none ∧ r2 = none := by
  constructor
  · unfold VEZipCodeField.clean fieldBaseClean at h1
    simp only [] at h1
    rw [if_neg hs] at h1
    exact zipCheck_ok _ _ h1
  · unfold VEPhoneField.clean phoneBaseClean at h2
    rw [if_neg ht] at h2
    by_cases hp : phonePattern t = true
    · rw [if_pos hp] at h2
      simp only [] at h2
      rw [if_neg ht] at h2
      by_cases hl : t.length ≠ 12
      · rw [if_pos hl] at h2
        exact Except.noConfusion h2
      · rw [if_neg hl] at h2
        exact (Except.ok.inj h2).symm
    · rw [if_neg hp] at h2
      simp only [] at h2
      exact Except.noConfusion h2

/-- C10 witness: the accepted inputs `"1010"` and `"0412-1234567"` satisfy the
hypotheses, and on both the cleaned result is `none`. -/
theorem c10_witness :
    VEZipCodeField.clean "1010" = Except.ok none ∧
    VEPhoneField.clean "0412-1234567" = Except.ok none ∧
    ((none : Option String) = none ∧ (none : Option String) = none) :=
  ⟨by decide, by decide,
   c10_returns_none "1010" "0412-1234567" none none (by decide) (by decide)
     (by decide) (by decide)⟩
